import Mathlib

/-!
Verification development for the TeamContext frontend (saroopmakhija/teamcontext-mcp).

The definitions below are a shallow embedding of the authentication path of
the repository:

* `src/frontend/src/types/auth.ts` — the wire/profile record types;
* `src/frontend/src/lib/api.ts` — the axios request interceptor (bearer
  header attachment) and response interceptor (401 → single refresh + retry),
  called version 1 here;
* `src/unnamed/part_003` — the duplicate copy of the API client, called
  version 2 here;
* `src/frontend/src/contexts/AuthContext.tsx` — `useAuth`, `checkAuth`,
  `login`, `register`, `logout`.

Browser storage (`localStorage`) is modelled as a record of the three keys
the code touches (`user`, `access_token`, `refresh_token`), each an
`Option String` (`none` = key absent, mirroring `getItem` returning `null`).
Backend calls are modelled by oracle arguments (`ApiResult`): the code under
analysis is the client, so each network call's outcome is an input.
JavaScript truthiness of `string | null` values (null and the empty string
are falsy) is modelled by `truthy`.
-/

namespace TeamContext

/-- From src/frontend/src/types/auth.ts: `TokenResponse`. -/
structure TokenResponse where
  access_token : String
  refresh_token : String
  token_type : String
deriving DecidableEq

/-- From src/frontend/src/types/auth.ts: `UserResponse`. -/
structure UserResponse where
  id : String
  email : String
  name : String
  api_key : String
  created_at : String
deriving DecidableEq

/-- From src/frontend/src/types/auth.ts: `User` (`apiKey?` and `created_at?`
are optional properties, hence `Option`). -/
structure User where
  id : String
  email : String
  name : String
  apiKey : Option String
  created_at : Option String
deriving DecidableEq

/-- The three `localStorage` keys the code reads and writes. `none` models a
missing key (`localStorage.getItem` returning `null`). -/
structure Storage where
  user : Option String
  access_token : Option String
  refresh_token : Option String
deriving DecidableEq

/-- JavaScript truthiness of a `string | null` value: `null` and `""` are
falsy, every other string is truthy. -/
def truthy : Option String → Bool
  | none => false
  | some s => s ≠ ""

/-- JavaScript `a || b` for `a : string | undefined` and a string literal
default `b`: returns `b` when `a` is `undefined` or the empty string. -/
def jsOr (a : Option String) (b : String) : String :=
  match a with
  | some s => if s = "" then b else s
  | none => b

/-- Lower-case hexadecimal digit, used for `\u00XX` escapes. -/
def hexDigit (n : Nat) : Char :=
  if n < 10 then Char.ofNat (48 + n) else Char.ofNat (87 + n)

/-- Escaping of a single character as performed by `JSON.stringify` on the
characters of a string value. -/
def jsonEscapeChar (c : Char) : String :=
  if c = '"' then "\\\""
  else if c = '\\' then "\\\\"
  else if c = '\n' then "\\n"
  else if c = '\r' then "\\r"
  else if c = '\t' then "\\t"
  else if c = '\x08' then "\\b"
  else if c = '\x0c' then "\\f"
  else if c.toNat < 32 then
    "\\u00" ++ String.singleton (hexDigit (c.toNat / 16)) ++
      String.singleton (hexDigit (c.toNat % 16))
  else String.singleton c

/-- `JSON.stringify` on a string value (quotes plus escaped characters). -/
def jsonStr (s : String) : String :=
  "\"" ++ String.join (s.toList.map jsonEscapeChar) ++ "\""

/-- `JSON.stringify` applied to the `User` object literals built by
AuthContext.tsx. All literals list the keys in the order
`id, email, name, apiKey, created_at`; keys bound to `undefined`
(the `none` cases) are omitted by `JSON.stringify`. -/
def stringifyUser (u : User) : String :=
  "\x7b\"id\":" ++ jsonStr u.id ++
    ",\"email\":" ++ jsonStr u.email ++
    ",\"name\":" ++ jsonStr u.name ++
    (match u.apiKey with
     | some k => ",\"apiKey\":" ++ jsonStr k
     | none => "") ++
    (match u.created_at with
     | some c => ",\"created_at\":" ++ jsonStr c
     | none => "") ++ "\x7d"

/-- The token-caching statements shared by api.ts lines 56–61 (both
versions) and AuthContext.tsx login/register:
`if (resp.access_token) localStorage.setItem('access_token', …)` and the
same for `refresh_token`. The guards are JS truthiness on a `string`. -/
def setTokensTruthy (s : Storage) (tok : TokenResponse) : Storage :=
  let s1 := if tok.access_token ≠ "" then
    { s with access_token := some tok.access_token } else s
  if tok.refresh_token ≠ "" then
    { s1 with refresh_token := some tok.refresh_token } else s1

/-- The only header either interceptor touches. -/
structure Headers where
  authorization : Option String
deriving DecidableEq

/-- An axios request config as seen by the interceptors: its headers object
(`Option` because the source guards on `config.headers`; axios itself always
supplies one) and the ad-hoc `_retry` flag (absent = `false`). -/
structure RequestConfig where
  headers : Option Headers
  retry : Bool
deriving DecidableEq

/-- src/frontend/src/lib/api.ts lines 17–39 (version 1): the request
interceptor. `parseOk userData` models `JSON.parse(userData)` succeeding;
a parse failure is caught and the config is returned unchanged.
`windowDefined` models `typeof window !== 'undefined'`. Note the header is
attached only when a truthy `user` entry is cached and parses, a truthy
`access_token` is cached, and `config.headers` is truthy. -/
def requestInterceptor (parseOk : String → Bool) (windowDefined : Bool)
    (st : Storage) (config : RequestConfig) : RequestConfig :=
  if windowDefined then
    match st.user with
    | some userData =>
      if userData ≠ "" then
        if parseOk userData then
          match st.access_token with
          | some accessToken =>
            if accessToken ≠ "" then
              match config.headers with
              | some h =>
                { config with
                  headers := some { h with
                    authorization := some ("Bearer " ++ accessToken) } }
              | none => config
            else config
          | none => config
        else config
      else config
    | none => config
  else config

/-- src/unnamed/part_003 lines 17–39 (version 2): identical except that the
header assignment `config.headers.Authorization = …` is not guarded on
`config.headers`; when the headers object is absent the resulting TypeError
is caught by the surrounding `catch`, so the config is returned unchanged. -/
def requestInterceptorV2 (parseOk : String → Bool) (windowDefined : Bool)
    (st : Storage) (config : RequestConfig) : RequestConfig :=
  if windowDefined then
    match st.user with
    | some userData =>
      if userData ≠ "" then
        if parseOk userData then
          match st.access_token with
          | some accessToken =>
            if accessToken ≠ "" then
              match config.headers with
              | some h =>
                { config with
                  headers := some { h with
                    authorization := some ("Bearer " ++ accessToken) } }
              | none => config
            else config
          | none => config
        else config
      else config
    | none => config
  else config

/-- Outcome of the `await api.post('/auth/refresh')` call: resolves with a
token payload, or rejects. -/
inductive RefreshResult where
  | ok (tok : TokenResponse)
  | err
deriving DecidableEq

/-- The axios error object handed to the response interceptor's rejection
handler: `error.response?.status` (`none` when there was no response) and
`error.config` (the original request). -/
structure ErrorObj where
  status : Option Nat
  config : RequestConfig
deriving DecidableEq

/-- What the rejection handler returns: retry the (mutated) original request
(`return api(originalRequest)`), or propagate the rejection
(`return Promise.reject(error)`). -/
inductive HandlerAction where
  | retry (newConfig : RequestConfig)
  | reject
deriving DecidableEq

/-- Observable result of one run of the rejection handler: updated storage,
number of calls made to the refresh endpoint, whether
`window.location.href = '/login'` was executed, and the returned action. -/
structure HandlerResult where
  storage : Storage
  refreshCalls : Nat
  redirected : Bool
  action : HandlerAction
deriving DecidableEq

/-- src/frontend/src/lib/api.ts lines 42–83 (version 1): the response
interceptor's rejection handler. On a 401 for a not-yet-retried request it
marks the request, performs one refresh call; on refresh success it caches
the truthy tokens, sets the Authorization header (guarded on
`originalRequest.headers`) and retries; on refresh failure it clears the
three storage keys and redirects to /login (under the window guard), then
falls through to `Promise.reject(error)`. Anything else is rejected as-is. -/
def responseErrorHandler (windowDefined : Bool) (refresh : RefreshResult)
    (st : Storage) (error : ErrorObj) : HandlerResult :=
  if error.status = some 401 ∧ error.config.retry = false then
    let originalRequest := { error.config with retry := true }
    match refresh with
    | .ok tok =>
      let st1 := setTokensTruthy st tok
      let originalRequest1 :=
        match originalRequest.headers with
        | some h =>
          { originalRequest with
            headers := some { h with
              authorization := some ("Bearer " ++ tok.access_token) } }
        | none => originalRequest
      ⟨st1, 1, false, .retry originalRequest1⟩
    | .err =>
      if windowDefined then
        ⟨⟨none, none, none⟩, 1, true, .reject⟩
      else
        ⟨st, 1, false, .reject⟩
  else ⟨st, 0, false, .reject⟩

/-- src/unnamed/part_003 lines 42–81 (version 2): as version 1, but the
header assignment `originalRequest.headers.Authorization = …` is not guarded;
when the headers object is absent the TypeError is raised inside the `try`,
so control moves to the `catch (refreshError)` branch (storage cleared,
redirect) even though the refresh call itself succeeded, and the original
error is rejected. -/
def responseErrorHandlerV2 (windowDefined : Bool) (refresh : RefreshResult)
    (st : Storage) (error : ErrorObj) : HandlerResult :=
  if error.status = some 401 ∧ error.config.retry = false then
    let originalRequest := { error.config with retry := true }
    match refresh with
    | .ok tok =>
      let st1 := setTokensTruthy st tok
      match originalRequest.headers with
      | some h =>
        ⟨st1, 1, false, .retry
          { originalRequest with
            headers := some { h with
              authorization := some ("Bearer " ++ tok.access_token) } }⟩
      | none =>
        if windowDefined then
          ⟨⟨none, none, none⟩, 1, true, .reject⟩
        else
          ⟨st1, 1, false, .reject⟩
    | .err =>
      if windowDefined then
        ⟨⟨none, none, none⟩, 1, true, .reject⟩
      else
        ⟨st, 1, false, .reject⟩
  else ⟨st, 0, false, .reject⟩

/-- Axios' default `validateStatus`: a response fulfills the request promise
iff its status is in [200, 300). -/
def isSuccessStatus (s : Nat) : Bool :=
  decide (200 ≤ s ∧ s < 300)

/-- Whether a network event (`some status`, or `none` for no response at
all) rejects the request promise and so reaches the rejection handler. -/
def isErrorResp : Option Nat → Bool
  | some s => !(isSuccessStatus s)
  | none => true

/-- Final fate of the caller's promise. `pending` = the response list ran
out with a request still in flight. -/
inductive Outcome where
  | fulfilled (status : Nat)
  | rejected (status : Option Nat)
  | pending
deriving DecidableEq

/-- Aggregate observable behaviour of one request's lifecycle through the
version-1 response interceptor. -/
structure RunResult where
  storage : Storage
  refreshCalls : Nat
  retries : Nat
  redirected : Bool
  outcome : Outcome
deriving DecidableEq

/-- One request driven through the version-1 response interceptor against a
list of network events: the head event answers the in-flight request; when
the handler retries, the tail answers the retried request, and so on. The
refresh oracle gives the outcome of any refresh call. Totals are summed. -/
def runAux (windowDefined : Bool) (refresh : RefreshResult) :
    List (Option Nat) → Storage → RequestConfig → RunResult
  | [], st, _ => ⟨st, 0, 0, false, .pending⟩
  | resp :: rest, st, config =>
    if isErrorResp resp then
      match responseErrorHandler windowDefined refresh st ⟨resp, config⟩ with
      | ⟨st2, n, redir, .reject⟩ => ⟨st2, n, 0, redir, .rejected resp⟩
      | ⟨st2, n, redir, .retry newConfig⟩ =>
        match runAux windowDefined refresh rest st2 newConfig with
        | ⟨st3, n2, t2, redir2, out⟩ =>
          ⟨st3, n + n2, 1 + t2, redir || redir2, out⟩
    else
      ⟨st, 0, 0, false, .fulfilled (resp.getD 0)⟩

/-- A request whose first response is `first` and whose (single possible)
retry is answered by `retryResp`. -/
def runRequest (windowDefined : Bool) (refresh : RefreshResult)
    (st : Storage) (config : RequestConfig)
    (first retryResp : Option Nat) : RunResult :=
  runAux windowDefined refresh [first, retryResp] st config

/-- Error information the AuthContext handlers read off a rejected backend
call: `error.response?.data?.detail` and `error.message`. -/
structure ApiFailure where
  detail : Option String
  message : Option String
deriving DecidableEq

/-- Outcome of one backend call, supplied as an oracle to the AuthContext
handlers (the backend is outside this repository). -/
inductive ApiResult (α : Type) where
  | ok (value : α)
  | fail (failure : ApiFailure)
deriving DecidableEq

/-- How an async AuthContext handler ends: resolves with a value, or rejects
with `new Error(msg)`. -/
inductive CallResult (α : Type) where
  | ok (value : α)
  | thrown (msg : String)
deriving DecidableEq

/-- The state AuthProvider holds: the React `user` state, the `loading`
flag, and browser storage. `user = none ∧ loading = false` is the spec's
Anonymous state; `loading = true` is Uninitialized/Hydrating;
`isAuthenticated` is `!!user`, i.e. `user.isSome`. -/
structure AuthState where
  user : Option User
  loading : Bool
  storage : Storage
deriving DecidableEq

/-- src/frontend/src/contexts/AuthContext.tsx lines 18–24: `useAuth` throws
when the context value is `undefined` (no surrounding AuthProvider) and
returns the context value otherwise. -/
def useAuth {α : Type} (context : Option α) : CallResult α :=
  match context with
  | none => .thrown "useAuth must be used within an AuthProvider"
  | some v => .ok v

/-- src/frontend/src/contexts/AuthContext.tsx lines 35–69: `checkAuth`, run
once on mount. When a truthy `user` entry is cached it validates the session
via `getCurrentUser` (outcome `getUser`): on success it rebuilds and
re-stores the validated user; on failure it removes only the `user` storage
key and sets the React user to null. In every path `loading` ends false.
(The outer catch, reachable only if `localStorage` itself throws, is not
modelled.) -/
def checkAuth (getUser : ApiResult UserResponse) (st : AuthState) : AuthState :=
  match st.storage.user with
  | some userData =>
    if userData ≠ "" then
      match getUser with
      | .ok userInfo =>
        let validatedUser : User :=
          ⟨userInfo.id, userInfo.email, userInfo.name, none, some userInfo.created_at⟩
        { user := some validatedUser, loading := false,
          storage := { st.storage with user := some (stringifyUser validatedUser) } }
      | .fail _ =>
        { user := none, loading := false,
          storage := { st.storage with user := none } }
    else { st with loading := false }
  | none => { st with loading := false }

/-- src/frontend/src/contexts/AuthContext.tsx lines 71–111: `login`. On
backend-login success it caches the truthy tokens, then fetches the profile:
on success it stores the full profile, on failure it stores the degraded
`⟨"", email, ""⟩` profile; either way the user is set. On backend-login
failure it throws `Error(detail || 'Login failed')`. -/
def login (loginResult : ApiResult TokenResponse)
    (getUser : ApiResult UserResponse)
    (st : AuthState) (email _password : String) :
    AuthState × CallResult Unit :=
  match loginResult with
  | .fail e => (st, .thrown (jsOr e.detail "Login failed"))
  | .ok tok =>
    let storage1 := setTokensTruthy st.storage tok
    match getUser with
    | .ok userInfo =>
      let userData : User :=
        ⟨userInfo.id, userInfo.email, userInfo.name, none, some userInfo.created_at⟩
      ({ user := some userData, loading := st.loading,
         storage := { storage1 with user := some (stringifyUser userData) } },
       .ok ())
    | .fail _ =>
      let userData : User := ⟨"", email, "", none, none⟩
      ({ user := some userData, loading := st.loading,
         storage := { storage1 with user := some (stringifyUser userData) } },
       .ok ())

/-- src/frontend/src/contexts/AuthContext.tsx lines 113–167: `register`. On
backend-registration success it keeps the returned one-time API key and
attempts an automatic login: on login success it caches the truthy tokens;
in BOTH the login-success and the login-failure branch it builds the same
user object from the registration response (including the API key), stores
it, sets the React user, and resolves with the API key. On registration
failure it throws `Error(detail || message || 'Registration failed')`. -/
def register (registerResult : ApiResult UserResponse)
    (loginResult : ApiResult TokenResponse)
    (st : AuthState) (_name _email _password : String) :
    AuthState × CallResult String :=
  match registerResult with
  | .fail e =>
    (st, .thrown (jsOr e.detail (jsOr e.message "Registration failed")))
  | .ok response =>
    let apiKey := response.api_key
    let userData : User :=
      ⟨response.id, response.email, response.name, some apiKey,
        some response.created_at⟩
    match loginResult with
    | .ok loginResponse =>
      let storage1 := setTokensTruthy st.storage loginResponse
      ({ user := some userData, loading := st.loading,
         storage := { storage1 with user := some (stringifyUser userData) } },
       .ok apiKey)
    | .fail _ =>
      ({ user := some userData, loading := st.loading,
         storage := { st.storage with user := some (stringifyUser userData) } },
       .ok apiKey)

/-- src/frontend/src/contexts/AuthContext.tsx lines 169–180: `logout`. The
backend call's outcome (`backendOk`) is caught and only logged; the
`finally` block unconditionally removes the three storage keys and nulls the
user, and the promise always resolves. -/
def logout (backendOk : Bool) (st : AuthState) : AuthState × CallResult Unit :=
  match backendOk with
  | true =>
    ({ st with user := none, storage := ⟨none, none, none⟩ }, .ok ())
  | false =>
    ({ st with user := none, storage := ⟨none, none, none⟩ }, .ok ())

/-! ### Helper lemmas -/

/-- An error whose request already carries the `_retry` mark never enters
the refresh branch: storage untouched, no refresh call, no redirect, and the
rejection is propagated. -/
theorem handler_reject_of_retry (w : Bool) (refresh : RefreshResult)
    (st : Storage) (err : ErrorObj) (h : err.config.retry = true) :
    responseErrorHandler w refresh st err = ⟨st, 0, false, .reject⟩ := by
  unfold responseErrorHandler
  rw [if_neg]
  rintro ⟨-, h2⟩
  rw [h] at h2
  exact Bool.noConfusion h2

/-- Any config the version-1 handler hands back for a retry carries the
`_retry` mark. -/
theorem handler_retry_flag (w : Bool) (refresh : RefreshResult)
    (st : Storage) (err : ErrorObj) (cfg2 : RequestConfig)
    (h : (responseErrorHandler w refresh st err).action = .retry cfg2) :
    cfg2.retry = true := by
  unfold responseErrorHandler at h
  split at h
  · split at h
    · simp only at h
      split at h
      · cases h
        rfl
      · cases h
        rfl
    · split at h <;> exact absurd h (by simp)
  · exact absurd h (by simp)

/-- On a 401 for an unretried request with a successful refresh, the
version-1 handler stores the truthy tokens and asks for a retry with a
marked config. -/
theorem handler_401_fresh (w : Bool) (st : Storage) (tok : TokenResponse)
    (config : RequestConfig) (h : config.retry = false) :
    ∃ cfg2, cfg2.retry = true ∧
      responseErrorHandler w (.ok tok) st ⟨some 401, config⟩ =
        ⟨setTokensTruthy st tok, 1, false, .retry cfg2⟩ := by
  unfold responseErrorHandler
  rw [if_pos ⟨rfl, h⟩]
  cases hh : config.headers with
  | none =>
    exact ⟨⟨config.headers, true⟩, rfl, by simp [hh]⟩
  | some hd =>
    exact ⟨⟨some ⟨some ("Bearer " ++ tok.access_token)⟩, true⟩, rfl,
      by simp [hh]⟩

/-- With both returned tokens truthy, caching them overwrites both slots. -/
theorem setTokensTruthy_of_nonempty (st : Storage) (tok : TokenResponse)
    (ha : tok.access_token ≠ "") (hr : tok.refresh_token ≠ "") :
    setTokensTruthy st tok =
      ⟨st.user, some tok.access_token, some tok.refresh_token⟩ := by
  simp [setTokensTruthy, ha, hr]

/-- A request already carrying the `_retry` mark is never retried again and
triggers no refresh call: its next network event settles it. -/
theorem runAux_of_retry (w : Bool) (refresh : RefreshResult)
    (l : List (Option Nat)) (st : Storage) (config : RequestConfig)
    (h : config.retry = true) :
    runAux w refresh l st config =
      ⟨st, 0, 0, false,
        match l with
        | [] => Outcome.pending
        | resp :: _ =>
          if isErrorResp resp then Outcome.rejected resp
          else Outcome.fulfilled (resp.getD 0)⟩ := by
  cases l with
  | nil => rfl
  | cons resp rest =>
    unfold runAux
    by_cases he : isErrorResp resp
    · rw [if_pos he, handler_reject_of_retry w refresh st ⟨resp, config⟩ h]
      simp [he]
    · rw [if_neg he]
      simp [he]

/-! ### Claim theorems -/

/-- Claim C1: for every request whose first response is a 401 and that has
not yet been retried (`config.retry = false`), the client performs exactly
one refresh call; when the refresh succeeds (with truthy tokens) it caches
the returned access and refresh credentials, retries the original request
exactly once, and the retried response settles the caller's promise
(fulfilled if 2xx, otherwise rejected with the retried response's error). -/
theorem refresh_success_single_retry
    (w : Bool) (st : Storage) (config : RequestConfig) (tok : TokenResponse)
    (retryResp : Option Nat)
    (hretry : config.retry = false)
    (ha : tok.access_token ≠ "") (hr : tok.refresh_token ≠ "") :
    runRequest w (.ok tok) st config (some 401) retryResp =
      ⟨⟨st.user, some tok.access_token, some tok.refresh_token⟩, 1, 1, false,
        match retryResp with
        | some s => if isSuccessStatus s then Outcome.fulfilled s
                    else Outcome.rejected (some s)
        | none => Outcome.rejected none⟩ := by
  obtain ⟨cfg2, hc2, hhandler⟩ := handler_401_fresh w st tok config hretry
  have hst := setTokensTruthy_of_nonempty st tok ha hr
  unfold runRequest runAux
  rw [if_pos (by decide : isErrorResp (some 401) = true), hhandler]
  cases retryResp with
  | none =>
    simp [isErrorResp, hst, runAux_of_retry, hc2]
  | some s =>
    by_cases hs : isSuccessStatus s
    · simp [isErrorResp, hs, hst, runAux_of_retry, hc2]
    · simp [isErrorResp, hs, hst, runAux_of_retry, hc2]

/-- Witness for C1 at a concrete input: first response 401, refresh returns
tokens `newA`/`newR`, the retried request answers 200. -/
theorem refresh_success_single_retry_witness :
    runRequest true (.ok ⟨"newA", "newR", "bearer"⟩)
        ⟨some "u", some "old", none⟩ ⟨some ⟨some ("Bearer " ++ "old")⟩, false⟩
        (some 401) (some 200) =
      ⟨⟨some "u", some "newA", some "newR"⟩, 1, 1, false,
        Outcome.fulfilled 200⟩ := by
  have h := refresh_success_single_retry true ⟨some "u", some "old", none⟩
    ⟨some ⟨some ("Bearer " ++ "old")⟩, false⟩ ⟨"newA", "newR", "bearer"⟩
    (some 200) rfl (by decide) (by decide)
  rw [h]
  decide

/-- Claim C2: a request already retried once that receives another 401
triggers no further refresh call and no further retry — the rejection
handler leaves storage alone, performs zero refresh calls, and propagates
the rejection; consequently no request lifecycle ever counts more than one
retry, whatever the response sequence. -/
theorem retried_request_no_refresh :
    (∀ (w : Bool) (refresh : RefreshResult) (st : Storage) (err : ErrorObj),
        err.config.retry = true →
        responseErrorHandler w refresh st err = ⟨st, 0, false, .reject⟩) ∧
    (∀ (w : Bool) (refresh : RefreshResult) (responses : List (Option Nat))
        (st : Storage) (config : RequestConfig),
        (runAux w refresh responses st config).retries ≤ 1) := by
  refine ⟨handler_reject_of_retry, ?_⟩
  intro w refresh responses st config
  cases responses with
  | nil => simp [runAux]
  | cons resp rest =>
    unfold runAux
    by_cases he : isErrorResp resp
    · rw [if_pos he]
      split
      · simp
      · rename_i st2 n redir newConfig heq
        have hflag : newConfig.retry = true :=
          handler_retry_flag w refresh st ⟨resp, config⟩ newConfig
            (by rw [heq])
        rw [runAux_of_retry w refresh rest st2 newConfig hflag]
    · rw [if_neg he]
      simp

/-- Witness for C2 at a concrete input: a 401 arriving for a request whose
`_retry` flag is already set is rejected with no refresh call. -/
theorem retried_request_no_refresh_witness :
    responseErrorHandler true .err ⟨some "u", none, none⟩
        ⟨some 401, ⟨none, true⟩⟩ =
      ⟨⟨some "u", none, none⟩, 0, false, .reject⟩ :=
  retried_request_no_refresh.1 true .err ⟨some "u", none, none⟩
    ⟨some 401, ⟨none, true⟩⟩ rfl

/-- Claim C3: when the refresh call triggered by a 401 fails (browser
context, request not yet retried), the client removes the `user`,
`access_token` and `refresh_token` storage entries, navigates to `/login`,
and the original request's promise is rejected with the original 401. -/
theorem refresh_failure_clears_and_redirects
    (st : Storage) (config : RequestConfig) (retryResp : Option Nat)
    (hretry : config.retry = false) :
    runRequest true .err st config (some 401) retryResp =
      ⟨⟨none, none, none⟩, 1, 0, true, .rejected (some 401)⟩ := by
  unfold runRequest runAux responseErrorHandler
  rw [if_pos (by decide : isErrorResp (some 401) = true),
    if_pos ⟨rfl, hretry⟩]
  simp

/-- Witness for C3 at a concrete input. -/
theorem refresh_failure_clears_and_redirects_witness :
    runRequest true .err ⟨some "u", some "a", some "r"⟩ ⟨some ⟨none⟩, false⟩
        (some 401) none =
      ⟨⟨none, none, none⟩, 1, 0, true, .rejected (some 401)⟩ :=
  refresh_failure_clears_and_redirects ⟨some "u", some "a", some "r"⟩
    ⟨some ⟨none⟩, false⟩ none rfl

/-- Counterexample to claim C4 as stated: at a storage state whose
`access_token` entry is cached (`some "tok"`) but whose `user` entry is
absent, the request interceptor attaches no Authorization header — the
config comes back unchanged, contradicting "if an access credential is
cached in storage, the request interceptor attaches it". -/
theorem bearer_header_requires_user_entry_cex :
    (⟨none, some "tok", none⟩ : Storage).access_token = some "tok" ∧
    requestInterceptor (fun _ => true) true ⟨none, some "tok", none⟩
        ⟨some ⟨none⟩, false⟩ = ⟨some ⟨none⟩, false⟩ := by
  exact ⟨rfl, rfl⟩

/-- Claim C4 (amended): in a browser context, when a truthy `user` entry is
cached and parses as JSON AND a truthy access credential is cached, the
request interceptor attaches `Authorization: Bearer <token>`; with no
cached `user` entry nothing is attached (see the counterexample). -/
theorem bearer_header_attached_with_user_and_token
    (parseOk : String → Bool) (st : Storage) (hd : Headers) (r : Bool)
    (ud tokv : String)
    (hu : st.user = some ud) (hune : ud ≠ "") (hp : parseOk ud = true)
    (ht : st.access_token = some tokv) (htne : tokv ≠ "") :
    requestInterceptor parseOk true st ⟨some hd, r⟩ =
      ⟨some ⟨some ("Bearer " ++ tokv)⟩, r⟩ := by
  unfold requestInterceptor
  rw [hu]
  simp [hune, hp, ht, htne]

/-- Witness for the amended C4 at a concrete input. -/
theorem bearer_header_attached_with_user_and_token_witness :
    requestInterceptor (fun _ => true) true ⟨some "u", some "tok", none⟩
        ⟨some ⟨none⟩, false⟩ =
      ⟨some ⟨some ("Bearer " ++ "tok")⟩, false⟩ :=
  bearer_header_attached_with_user_and_token (fun _ => true)
    ⟨some "u", some "tok", none⟩ ⟨none⟩ false "u" "tok"
    rfl (by decide) rfl rfl (by decide)

/-- Counterexample to claim C5 as stated: with a successful registration
(one-time key `KEY-1`) followed by a failing automatic login, `register`
still resolves with the API key, but the session is NOT left Anonymous: the
React user is set (to the profile from the registration response), so
`isAuthenticated` is true — contradicting "the session remains in the
Anonymous state (no authenticated user)". -/
theorem register_login_failure_not_anonymous_cex :
    (register (.ok ⟨"u1", "ana@example.com", "Ana", "KEY-1", "2024-01-01"⟩)
        (.fail ⟨none, none⟩) ⟨none, false, ⟨none, none, none⟩⟩
        "Ana" "ana@example.com" "pw").2 = .ok "KEY-1" ∧
    (register (.ok ⟨"u1", "ana@example.com", "Ana", "KEY-1", "2024-01-01"⟩)
        (.fail ⟨none, none⟩) ⟨none, false, ⟨none, none, none⟩⟩
        "Ana" "ana@example.com" "pw").1.user ≠ none := by
  constructor
  · rfl
  · decide

/-- Claim C5 (amended): if registration succeeds but the automatic login
fails, the one-time API key is still returned to the caller; the user
profile built from the registration response (including the API key) is
still stored and set — so the session appears Authenticated rather than
Anonymous — while no access/refresh token is cached (token slots are left
as they were). -/
theorem register_login_failure_returns_key_and_sets_user
    (response : UserResponse) (f : ApiFailure) (st : AuthState)
    (name email password : String) :
    register (.ok response) (.fail f) st name email password =
      ({ user := some ⟨response.id, response.email, response.name,
            some response.api_key, some response.created_at⟩,
         loading := st.loading,
         storage := { st.storage with user := some (stringifyUser
            ⟨response.id, response.email, response.name,
             some response.api_key, some response.created_at⟩) } },
       .ok response.api_key) := rfl

/-- Counterexample to claim C6 as stated: starting from cached entries for
all of `user`, `access_token` and `refresh_token`, when the current-user
validation fails the store does become Anonymous (user `none`, loading
over, `user` entry removed), but the `access_token` and `refresh_token`
entries are NOT cleared from storage — contradicting "the cached
credentials are cleared from storage". -/
theorem checkAuth_reject_keeps_tokens_cex :
    checkAuth (.fail ⟨none, none⟩)
        ⟨none, true, ⟨some "\x7b\x7d", some "atk", some "rtk"⟩⟩ =
      ⟨none, false, ⟨none, some "atk", some "rtk"⟩⟩ ∧
    ¬ (checkAuth (.fail ⟨none, none⟩)
        ⟨none, true, ⟨some "\x7b\x7d", some "atk", some "rtk"⟩⟩).storage.access_token = none := by
  constructor
  · rfl
  · decide

/-- Claim C6 (amended): with a truthy cached `user` entry at startup, if the
backend rejects the current-user validation the session transitions to
Anonymous (user `none`, loading finished) and the cached `user` entry is
removed, while the `access_token` and `refresh_token` entries remain in
storage unchanged. -/
theorem checkAuth_reject_clears_user_entry_only
    (f : ApiFailure) (st : AuthState) (ud : String)
    (hu : st.storage.user = some ud) (hne : ud ≠ "") :
    checkAuth (.fail f) st =
      ⟨none, false, ⟨none, st.storage.access_token,
        st.storage.refresh_token⟩⟩ := by
  unfold checkAuth
  rw [hu]
  simp [hne]

/-- Witness for the amended C6 at a concrete input. -/
theorem checkAuth_reject_clears_user_entry_only_witness :
    checkAuth (.fail ⟨none, none⟩)
        ⟨none, true, ⟨some "u", some "a", some "r"⟩⟩ =
      ⟨none, false, ⟨none, some "a", some "r"⟩⟩ :=
  checkAuth_reject_clears_user_entry_only ⟨none, none⟩
    ⟨none, true, ⟨some "u", some "a", some "r"⟩⟩ "u" rfl (by decide)

/-- Claim C7: after a successful backend login, the session is Authenticated
in both profile-fetch outcomes: if `getCurrentUser` succeeds the stored user
is the fully populated profile (id, email, name, created_at); if it fails
the stored user carries only the email (empty id and name, no creation
timestamp); `login` resolves either way. -/
theorem login_profile_population
    (tok : TokenResponse) (getUser : ApiResult UserResponse)
    (st : AuthState) (email password : String) :
    ((login (.ok tok) getUser st email password).1.user ≠ none) ∧
    ((login (.ok tok) getUser st email password).2 = .ok ()) ∧
    (∀ userInfo, getUser = .ok userInfo →
      (login (.ok tok) getUser st email password).1.user =
        some ⟨userInfo.id, userInfo.email, userInfo.name, none,
          some userInfo.created_at⟩) ∧
    (∀ f, getUser = .fail f →
      (login (.ok tok) getUser st email password).1.user =
        some ⟨"", email, "", none, none⟩) := by
  cases getUser <;> simp [login]

/-- Witness for C7 at concrete inputs, one per profile-fetch outcome. -/
theorem login_profile_population_witness :
    (login (.ok ⟨"at", "rt", "bearer"⟩) (.ok ⟨"u1", "e@x", "N", "k", "d"⟩)
        ⟨none, false, ⟨none, none, none⟩⟩ "e@x" "pw").1.user =
      some ⟨"u1", "e@x", "N", none, some "d"⟩ ∧
    (login (.ok ⟨"at", "rt", "bearer"⟩) (.fail ⟨none, none⟩)
        ⟨none, false, ⟨none, none, none⟩⟩ "e@x" "pw").1.user =
      some ⟨"", "e@x", "", none, none⟩ :=
  ⟨(login_profile_population ⟨"at", "rt", "bearer"⟩
      (.ok ⟨"u1", "e@x", "N", "k", "d"⟩) ⟨none, false, ⟨none, none, none⟩⟩
      "e@x" "pw").2.2.1 ⟨"u1", "e@x", "N", "k", "d"⟩ rfl,
   (login_profile_population ⟨"at", "rt", "bearer"⟩ (.fail ⟨none, none⟩)
      ⟨none, false, ⟨none, none, none⟩⟩ "e@x" "pw").2.2.2 ⟨none, none⟩ rfl⟩

/-- Claim C8: `logout` always yields the Anonymous state — whatever the
backend logout call's outcome, the three storage entries and the in-memory
user are unconditionally cleared, and the promise always resolves (backend
failures are swallowed). -/
theorem logout_always_anonymous (backendOk : Bool) (st : AuthState) :
    logout backendOk st =
      ({ st with user := none, storage := ⟨none, none, none⟩ }, .ok ()) := by
  cases backendOk <;> rfl

/-- Claim C9: the two source copies of the API client are behaviorally
equivalent on the authentication path: the request interceptors agree on
every input, and the response rejection handlers agree on every error whose
request carries a headers object (axios always supplies one; the sources
differ only in a guard on that object and in non-behavioral typing). -/
theorem api_client_versions_equivalent :
    (∀ (parseOk : String → Bool) (w : Bool) (st : Storage)
        (config : RequestConfig),
        requestInterceptor parseOk w st config =
          requestInterceptorV2 parseOk w st config) ∧
    (∀ (w : Bool) (refresh : RefreshResult) (st : Storage) (err : ErrorObj)
        (hd : Headers), err.config.headers = some hd →
        responseErrorHandler w refresh st err =
          responseErrorHandlerV2 w refresh st err) := by
  constructor
  · intro parseOk w st config
    rfl
  · intro w refresh st err hd hh
    unfold responseErrorHandler responseErrorHandlerV2
    split
    · cases refresh with
      | ok tok => simp [hh]
      | err => rfl
    · rfl

/-- Witness for C9 at a concrete input with a headers object present. -/
theorem api_client_versions_equivalent_witness :
    responseErrorHandler true .err ⟨none, none, none⟩
        ⟨some 401, ⟨some ⟨none⟩, false⟩⟩ =
      responseErrorHandlerV2 true .err ⟨none, none, none⟩
        ⟨some 401, ⟨some ⟨none⟩, false⟩⟩ :=
  api_client_versions_equivalent.2 true .err ⟨none, none, none⟩
    ⟨some 401, ⟨some ⟨none⟩, false⟩⟩ ⟨none⟩ rfl

/-- Claim C10: `useAuth` called where the context value is `undefined`
(outside any AuthProvider) throws
`Error('useAuth must be used within an AuthProvider')`, and called inside a
provider it returns the provider's value without throwing. -/
theorem useAuth_outside_provider_throws :
    ∀ (α : Type) (v : α),
      useAuth (none : Option α) =
        .thrown "useAuth must be used within an AuthProvider" ∧
      useAuth (some v) = .ok v := by
  intro α v
  exact ⟨rfl, rfl⟩

end TeamContext
